import Mathlib

/-!
Verification of the scoring engine of the player-database application.

The engine is the function `calculate_player_points` of
`src/player_database_app.py`.  It receives all result records, the
athlete's identifier, a window mode ("365" for the rolling year ending at
a reference date, anything else for an explicit custom range), the current
date (standing for `date.today()`, used when no reference date is given),
an optional reference date and optional start/end bounds, and returns a
score breakdown.

Modelling decisions:
* dates are day numbers (`Int`); an unparseable or missing date is `none`
  (pandas turns those into `NaT`, which fails every range comparison);
* points are exact rationals (`Option ℚ`); `none` stands for a value that
  `pd.to_numeric(..., errors="coerce")` turned into `NaN` and that
  `fillna(0.0)` later coerces to `0`;
* `pd.DataFrame.sort_values` is modelled by a sort producing the same
  multiset ordered by the requested key (insertion sort).
-/

attribute [local semireducible] Rat.add

/-- One row of the results table (the columns of `RESULT_COLUMNS`). -/
structure ResultRec where
  result_id : String
  player_id : String
  season : String
  date : Option Int
  event_type : String
  tournament_name : String
  teammate : String
  points : Option ℚ
  rank : Option ℚ
  prize_money : Option ℚ
  deriving DecidableEq

/-- The four recognized event categories (`EVENT_TYPES` in the source). -/
def EVENT_TYPES : List String := ["AVC", "FIVB", "AVC Multi/Zonal", "Other Multi/Zonal"]

/-- The dictionary returned by `calculate_player_points`. -/
structure Breakdown where
  total_points : ℚ
  bucket1_points : ℚ
  bucket2_points : ℚ
  selected_results : List ResultRec
  window_results : List ResultRec
  scenario_tag : String
  period_text : String
  deriving DecidableEq

/-- Shorthand for building a result record; presentation-only columns get
default values. -/
def mkRes (id pid : String) (d : Option Int) (et : String) (p : Option ℚ) : ResultRec :=
  { result_id := id, player_id := pid, season := "", date := d, event_type := et,
    tournament_name := "", teammate := "", points := p, rank := some 1,
    prize_money := some 0 }

/-- `results_df[results_df["player_id"] == player_id]` (line 240). -/
def playerResults (results : List ResultRec) (pid : String) : List ResultRec :=
  results.filter (fun r => r.player_id == pid)

/-- Numeric value of the points column after `fillna(0.0)` (line 287). -/
def pts (r : ResultRec) : ℚ := r.points.getD 0

/-- The in-place coercion `window["points"] = to_numeric(...).fillna(0.0)`
applied to one row (line 287). -/
def coercePts (r : ResultRec) : ResultRec := { r with points := some (pts r) }

/-- The date-range mask `(res["date"] >= start) & (res["date"] <= end)`
(line 275); a `NaT` date fails both comparisons. -/
def inWindow (s e : Int) (r : ResultRec) : Bool :=
  match r.date with
  | some d => decide (s ≤ d) && decide (d ≤ e)
  | none => false

/-- The window set: rows of `res` dated inside `[s, e]`, with the points
column coerced to numbers (lines 275 and 287). -/
def windowFilter (s e : Int) (res : List ResultRec) : List ResultRec :=
  (res.filter (inWindow s e)).map coercePts

/-- Descending-by-points order used by
`sort_values("points", ascending=False)` (lines 293, 304, 324). -/
def ptsGe (a b : ResultRec) : Prop := pts b ≤ pts a

instance : DecidableRel ptsGe := fun a b => inferInstanceAs (Decidable (pts b ≤ pts a))

instance : IsTotal ResultRec ptsGe := ⟨fun a b => le_total (pts b) (pts a)⟩

instance : IsTrans ResultRec ptsGe := ⟨fun _ _ _ hab hbc => le_trans hbc hab⟩

/-- `df.sort_values("points", ascending=False)`. -/
def sortDescPoints (l : List ResultRec) : List ResultRec := List.insertionSort ptsGe l

/-- Ascending-by-date order used by `window.sort_values("date")` (line 331). -/
def dateLe (a b : ResultRec) : Prop := a.date.getD 0 ≤ b.date.getD 0

instance : DecidableRel dateLe := fun a b =>
  inferInstanceAs (Decidable (a.date.getD 0 ≤ b.date.getD 0))

/-- `window.sort_values("date")`. -/
def sortAscDate (l : List ResultRec) : List ResultRec := List.insertionSort dateLe l

/-- `sort_values("points", ascending=False).head(4)` (lines 293-294, 304-305). -/
def top4 (l : List ResultRec) : List ResultRec := (sortDescPoints l).take 4

/-- `df["points"].sum()`. -/
def sumPts (l : List ResultRec) : ℚ := (l.map pts).sum

/-- Scenario A, bucket 1: `event_type.isin(["AVC", "AVC Multi/Zonal"])` (line 290). -/
def bucket1_A (w : List ResultRec) : List ResultRec :=
  w.filter (fun r => r.event_type == "AVC" || r.event_type == "AVC Multi/Zonal")

/-- Scenario A, bucket 2: `event_type == "FIVB"` (line 291). -/
def bucket2_A (w : List ResultRec) : List ResultRec :=
  w.filter (fun r => r.event_type == "FIVB")

/-- Scenario B, bucket 1: `event_type == "AVC"` (line 301). -/
def bucket1_B (w : List ResultRec) : List ResultRec :=
  w.filter (fun r => r.event_type == "AVC")

/-- Scenario B, bucket 2: `event_type.isin(["FIVB", "Other Multi/Zonal"])` (line 302). -/
def bucket2_B (w : List ResultRec) : List ResultRec :=
  w.filter (fun r => r.event_type == "FIVB" || r.event_type == "Other Multi/Zonal")

/-- `total_A = bucket1_A_pts + bucket2_A_pts` (lines 296-298). -/
def total_A (w : List ResultRec) : ℚ :=
  sumPts (top4 (bucket1_A w)) + sumPts (top4 (bucket2_A w))

/-- `total_B = bucket1_B_pts + bucket2_B_pts` (lines 307-309). -/
def total_B (w : List ResultRec) : ℚ :=
  sumPts (top4 (bucket1_B w)) + sumPts (top4 (bucket2_B w))

/-- Period description for the rolling-year mode (line 259); the day
numbers stand for the ISO dates. -/
def periodText365 (s e : Int) : String :=
  toString s ++ " -> " ++ toString e ++ " (last 365 days)"

/-- Period description for the custom mode (line 273). -/
def periodTextCustom (s e : Int) : String := toString s ++ " -> " ++ toString e

/-- Window-bound resolution (lines 254-273): mode `"365"` always yields
the range `[ref - 365, ref]` with `ref` defaulting to today; any other
mode needs both explicit bounds and yields `none` (the `invalid_period`
exit) when either is missing. -/
def resolveWindow (mode : String) (today : Int)
    (ref_date start_date end_date : Option Int) : Option (Int × Int × String) :=
  if mode == "365" then
    some (ref_date.getD today - 365, ref_date.getD today,
      periodText365 (ref_date.getD today - 365) (ref_date.getD today))
  else
    match start_date, end_date with
    | some s, some e => some (s, e, periodTextCustom s e)
    | _, _ => none

/-- The scoring branch of `calculate_player_points` (lines 289-334),
entered with a non-empty window set. -/
def scoreWindow (w : List ResultRec) (ptext : String) : Breakdown :=
  if total_B w ≤ total_A w then
    { total_points := total_A w,
      bucket1_points := sumPts (top4 (bucket1_A w)),
      bucket2_points := sumPts (top4 (bucket2_A w)),
      selected_results := sortDescPoints (top4 (bucket1_A w) ++ top4 (bucket2_A w)),
      window_results := sortAscDate w,
      scenario_tag := "AVC_MZ_used",
      period_text := ptext }
  else
    { total_points := total_B w,
      bucket1_points := sumPts (top4 (bucket1_B w)),
      bucket2_points := sumPts (top4 (bucket2_B w)),
      selected_results := sortDescPoints (top4 (bucket1_B w) ++ top4 (bucket2_B w)),
      window_results := sortAscDate w,
      scenario_tag := "Other_MZ_used",
      period_text := ptext }

/-- `calculate_player_points` (lines 233-334).  `today` stands for
`date.today()`. -/
def calculate_player_points (results : List ResultRec) (pid mode : String)
    (today : Int) (ref_date start_date end_date : Option Int) : Breakdown :=
  if (playerResults results pid).isEmpty then
    { total_points := 0, bucket1_points := 0, bucket2_points := 0,
      selected_results := [], window_results := [],
      scenario_tag := "no_results", period_text := "" }
  else
    match resolveWindow mode today ref_date start_date end_date with
    | none =>
      { total_points := 0, bucket1_points := 0, bucket2_points := 0,
        selected_results := [], window_results := [],
        scenario_tag := "invalid_period", period_text := "No period selected" }
    | some (s, e, ptext) =>
      if (windowFilter s e (playerResults results pid)).isEmpty then
        { total_points := 0, bucket1_points := 0, bucket2_points := 0,
          selected_results := [],
          window_results := windowFilter s e (playerResults results pid),
          scenario_tag := "no_results_in_period", period_text := ptext }
      else
        scoreWindow (windowFilter s e (playerResults results pid)) ptext

/-- The team combiner (line 1057):
`team_total = res1["total_points"] + res2["total_points"]`. -/
def combine (b1 b2 : Breakdown) : ℚ := b1.total_points + b2.total_points

/-- When the athlete has results, the window resolves, and the window set is
non-empty, `calculate_player_points` returns the scoring branch's value. -/
theorem cpp_scoring (results : List ResultRec) (pid mode : String) (today : Int)
    (rd sd ed : Option Int) (s e : Int) (pt : String)
    (hres : (playerResults results pid).isEmpty = false)
    (hwin : resolveWindow mode today rd sd ed = some (s, e, pt))
    (hw : (windowFilter s e (playerResults results pid)).isEmpty = false) :
    calculate_player_points results pid mode today rd sd ed
      = scoreWindow (windowFilter s e (playerResults results pid)) pt := by
  unfold calculate_player_points
  rw [hres, hwin]
  simp [hw]

/-- C10: every breakdown returned by the engine, in every scenario, satisfies
`total_points = bucket1_points + bucket2_points`. -/
theorem total_is_bucket_sum (results : List ResultRec) (pid mode : String) (today : Int)
    (rd sd ed : Option Int) :
    (calculate_player_points results pid mode today rd sd ed).total_points
      = (calculate_player_points results pid mode today rd sd ed).bucket1_points
        + (calculate_player_points results pid mode today rd sd ed).bucket2_points := by
  unfold calculate_player_points
  split
  · norm_num
  · split
    · norm_num
    · split
      · norm_num
      · unfold scoreWindow total_A total_B
        split <;> rfl

/-- C9: the engine is deterministic — identical inputs (same result set, mode,
reference/start/end dates) yield identical breakdowns, including the tie-break
direction; in this embedding the engine is a pure function of its arguments,
so it cannot mutate the input result set. -/
theorem engine_deterministic (r1 r2 : List ResultRec) (p1 p2 m1 m2 : String)
    (t1 t2 : Int) (rd1 rd2 sd1 sd2 ed1 ed2 : Option Int)
    (h : r1 = r2 ∧ p1 = p2 ∧ m1 = m2 ∧ t1 = t2 ∧ rd1 = rd2 ∧ sd1 = sd2 ∧ ed1 = ed2) :
    calculate_player_points r1 p1 m1 t1 rd1 sd1 ed1
        = calculate_player_points r2 p2 m2 t2 rd2 sd2 ed2 ∧
    (calculate_player_points r1 p1 m1 t1 rd1 sd1 ed1).scenario_tag
        = (calculate_player_points r2 p2 m2 t2 rd2 sd2 ed2).scenario_tag := by
  obtain ⟨rfl, rfl, rfl, rfl, rfl, rfl, rfl⟩ := h
  exact ⟨rfl, rfl⟩

/-- Witness for C9 at a concrete input. -/
theorem engine_deterministic_witness :
    calculate_player_points [mkRes "1" "p" (some 5) "AVC" (some 10)] "p" "365" 20 none none none
        = calculate_player_points [mkRes "1" "p" (some 5) "AVC" (some 10)] "p" "365" 20 none none none ∧
    (calculate_player_points [mkRes "1" "p" (some 5) "AVC" (some 10)] "p" "365" 20 none none none).scenario_tag
        = (calculate_player_points [mkRes "1" "p" (some 5) "AVC" (some 10)] "p" "365" 20 none none none).scenario_tag :=
  engine_deterministic _ _ _ _ _ _ _ _ _ _ _ _ _ _ ⟨rfl, rfl, rfl, rfl, rfl, rfl, rfl⟩

/-- C8: the team score is the sum of the two athletes' totals, `combine` is
commutative, and an athlete with no results contributes `0`. -/
theorem team_combine_props (results : List ResultRec) (pidX pidY mode : String)
    (today : Int) (rd sd ed : Option Int) :
    combine (calculate_player_points results pidX mode today rd sd ed)
        (calculate_player_points results pidY mode today rd sd ed)
      = (calculate_player_points results pidX mode today rd sd ed).total_points
        + (calculate_player_points results pidY mode today rd sd ed).total_points ∧
    combine (calculate_player_points results pidX mode today rd sd ed)
        (calculate_player_points results pidY mode today rd sd ed)
      = combine (calculate_player_points results pidY mode today rd sd ed)
        (calculate_player_points results pidX mode today rd sd ed) ∧
    ((playerResults results pidX).isEmpty = true →
      combine (calculate_player_points results pidX mode today rd sd ed)
          (calculate_player_points results pidY mode today rd sd ed)
        = 0 + (calculate_player_points results pidY mode today rd sd ed).total_points) := by
  refine ⟨rfl, add_comm _ _, fun h => ?_⟩
  have h0 : (calculate_player_points results pidX mode today rd sd ed).total_points = 0 := by
    unfold calculate_player_points
    rw [h]
    simp
  unfold combine
  rw [h0]

/-- Witness for C8 at a concrete input: athlete `x` has no results, athlete
`p` has one. -/
theorem team_combine_props_witness :
    ((playerResults [mkRes "1" "p" (some 5) "AVC" (some 10)] "x").isEmpty = true) ∧
    combine (calculate_player_points [mkRes "1" "p" (some 5) "AVC" (some 10)] "x" "365" 20 none none none)
        (calculate_player_points [mkRes "1" "p" (some 5) "AVC" (some 10)] "p" "365" 20 none none none)
      = 0 + (calculate_player_points [mkRes "1" "p" (some 5) "AVC" (some 10)] "p" "365" 20 none none none).total_points :=
  ⟨by decide,
    (team_combine_props [mkRes "1" "p" (some 5) "AVC" (some 10)] "x" "p" "365" 20
      none none none).2.2 (by decide)⟩

/-- The worked fixture of the specification: one primary-zonal (AVC
Multi/Zonal) result worth 100, one secondary-zonal (Other Multi/Zonal)
result worth 100, and three secondary (FIVB) results worth 10 each. -/
def fixtureResults : List ResultRec :=
  [mkRes "1" "p" (some 10) "AVC Multi/Zonal" (some 100),
   mkRes "2" "p" (some 20) "Other Multi/Zonal" (some 100),
   mkRes "3" "p" (some 30) "FIVB" (some 10),
   mkRes "4" "p" (some 40) "FIVB" (some 10),
   mkRes "5" "p" (some 50) "FIVB" (some 10)]

/-- C4: on the fixture, `total_A = total_B = 130`, the tie resolves to
Policy A (`AVC_MZ_used`), and the reported total is 130. -/
theorem fixture_tie_resolves_to_A :
    total_A (windowFilter 0 100 (playerResults fixtureResults "p")) = 130 ∧
    total_B (windowFilter 0 100 (playerResults fixtureResults "p")) = 130 ∧
    (calculate_player_points fixtureResults "p" "custom" 0 none (some 0) (some 100)).scenario_tag
      = "AVC_MZ_used" ∧
    (calculate_player_points fixtureResults "p" "custom" 0 none (some 0) (some 100)).total_points
      = 130 := by
  decide

/-- C2 counterexample: a custom window with both bounds present and
`start > end` (start = 10, end = 0) on an athlete with one result does NOT
return the `invalid_period` tag — the window set is merely empty and the
engine returns `no_results_in_period`; and for an athlete with zero results
a custom call with a missing bound returns `no_results`, not
`invalid_period` (the empty-athlete check runs first). -/
theorem startAfterEnd_not_invalid_period :
    (calculate_player_points [mkRes "1" "p" (some 5) "AVC" (some 10)]
        "p" "custom" 0 none (some 10) (some 0)).scenario_tag = "no_results_in_period" ∧
    (calculate_player_points [mkRes "1" "p" (some 5) "AVC" (some 10)]
        "p" "custom" 0 none (some 10) (some 0)).scenario_tag ≠ "invalid_period" ∧
    (calculate_player_points [mkRes "1" "p" (some 5) "AVC" (some 10)]
        "p" "custom" 0 none (some 10) (some 0)).total_points = 0 ∧
    (calculate_player_points ([] : List ResultRec)
        "p" "custom" 0 none none (some 3)).scenario_tag = "no_results" ∧
    (calculate_player_points ([] : List ResultRec)
        "p" "custom" 0 none none (some 3)).scenario_tag ≠ "invalid_period" := by
  decide

/-- C2 amended: for an athlete with at least one result record, a custom-mode
call with either bound missing returns the zero-filled `invalid_period`
breakdown (and no exception — the function is total); a custom-mode call with
both bounds present and `start > end` computes an empty window set and
returns the zero-filled `no_results_in_period` breakdown instead. -/
theorem invalid_window_amended (results : List ResultRec) (pid : String) (today : Int)
    (rd sd ed : Option Int) (s e : Int)
    (hres : (playerResults results pid).isEmpty = false) :
    ((sd = none ∨ ed = none) →
      calculate_player_points results pid "custom" today rd sd ed
        = { total_points := 0, bucket1_points := 0, bucket2_points := 0,
            selected_results := [], window_results := [],
            scenario_tag := "invalid_period", period_text := "No period selected" }) ∧
    (e < s →
      calculate_player_points results pid "custom" today rd (some s) (some e)
        = { total_points := 0, bucket1_points := 0, bucket2_points := 0,
            selected_results := [], window_results := [],
            scenario_tag := "no_results_in_period",
            period_text := periodTextCustom s e }) := by
  constructor
  · intro hne
    have hrwn : resolveWindow "custom" today rd sd ed = none := by
      rcases hne with rfl | rfl
      · cases ed <;> rfl
      · cases sd <;> rfl
    unfold calculate_player_points
    rw [hres, hrwn]
    simp
  · intro hse
    have hrw : resolveWindow "custom" today rd (some s) (some e)
        = some (s, e, periodTextCustom s e) := rfl
    have hin : ∀ r : ResultRec, inWindow s e r = false := by
      intro r
      unfold inWindow
      cases hd : r.date with
      | none => rfl
      | some d =>
        by_cases h1 : s ≤ d
        · have h2 : ¬ d ≤ e := fun h2 => absurd (le_trans h1 h2) (not_le.mpr hse)
          simp [h2]
        · simp [h1]
    have hwf : windowFilter s e (playerResults results pid) = [] := by
      unfold windowFilter
      have : (playerResults results pid).filter (inWindow s e) = [] := by
        induction playerResults results pid with
        | nil => rfl
        | cons a t ih => simp [List.filter_cons, hin a, ih]
      rw [this]
      rfl
    unfold calculate_player_points
    rw [hres, hrw]
    simp [hwf]

/-- Witness for C2's amended theorem at concrete inputs: athlete `q` with one
result; a missing start bound yields `invalid_period`, and start 10 > end 0
yields `no_results_in_period`. -/
theorem invalid_window_amended_witness :
    ((playerResults [mkRes "1" "q" (some 5) "AVC" (some 10)] "q").isEmpty = false) ∧
    calculate_player_points [mkRes "1" "q" (some 5) "AVC" (some 10)] "q" "custom" 0 none none (some 3)
      = { total_points := 0, bucket1_points := 0, bucket2_points := 0,
          selected_results := [], window_results := [],
          scenario_tag := "invalid_period", period_text := "No period selected" } ∧
    calculate_player_points [mkRes "1" "q" (some 5) "AVC" (some 10)] "q" "custom" 0 none (some 10) (some 0)
      = { total_points := 0, bucket1_points := 0, bucket2_points := 0,
          selected_results := [], window_results := [],
          scenario_tag := "no_results_in_period",
          period_text := periodTextCustom 10 0 } :=
  ⟨by decide,
    (invalid_window_amended [mkRes "1" "q" (some 5) "AVC" (some 10)] "q" 0 none none (some 3)
      10 0 (by decide)).1 (Or.inl rfl),
    (invalid_window_amended [mkRes "1" "q" (some 5) "AVC" (some 10)] "q" 0 none none (some 3)
      10 0 (by decide)).2 (by decide)⟩

/-- C5: an athlete with no results at all gets the `no_results` tag with
total 0, while an athlete whose results all fall outside the window gets the
distinct `no_results_in_period` tag with all totals zero. -/
theorem empty_scenarios_distinct (results1 results2 : List ResultRec)
    (pid1 pid2 mode : String) (today : Int) (rd sd ed : Option Int)
    (s e : Int) (pt : String)
    (h1 : (playerResults results1 pid1).isEmpty = true)
    (h2 : (playerResults results2 pid2).isEmpty = false)
    (hwin : resolveWindow mode today rd sd ed = some (s, e, pt))
    (hw : (windowFilter s e (playerResults results2 pid2)).isEmpty = true) :
    (calculate_player_points results1 pid1 mode today rd sd ed).scenario_tag = "no_results" ∧
    (calculate_player_points results1 pid1 mode today rd sd ed).total_points = 0 ∧
    (calculate_player_points results2 pid2 mode today rd sd ed).scenario_tag
        = "no_results_in_period" ∧
    (calculate_player_points results2 pid2 mode today rd sd ed).total_points = 0 ∧
    (calculate_player_points results2 pid2 mode today rd sd ed).bucket1_points = 0 ∧
    (calculate_player_points results2 pid2 mode today rd sd ed).bucket2_points = 0 ∧
    "no_results" ≠ "no_results_in_period" := by
  refine ⟨?_, ?_, ?_, ?_, ?_, ?_, by decide⟩ <;>
    · unfold calculate_player_points
      first
      | (rw [h1]; simp)
      | (rw [h2, hwin]; simp [hw])

/-- Witness for C5 at concrete inputs: athlete `x` has no records at all;
athlete `p` has one record dated outside the window `[0, 10]`. -/
theorem empty_scenarios_distinct_witness :
    ((playerResults ([] : List ResultRec) "x").isEmpty = true) ∧
    ((playerResults [mkRes "1" "p" (some 50) "AVC" (some 10)] "p").isEmpty = false) ∧
    ((windowFilter 0 10 (playerResults [mkRes "1" "p" (some 50) "AVC" (some 10)] "p")).isEmpty = true) ∧
    (calculate_player_points [] "x" "custom" 0 none (some 0) (some 10)).scenario_tag = "no_results" ∧
    (calculate_player_points [mkRes "1" "p" (some 50) "AVC" (some 10)]
        "p" "custom" 0 none (some 0) (some 10)).scenario_tag = "no_results_in_period" ∧
    (calculate_player_points [mkRes "1" "p" (some 50) "AVC" (some 10)]
        "p" "custom" 0 none (some 0) (some 10)).total_points = 0 := by
  have h := empty_scenarios_distinct [] [mkRes "1" "p" (some 50) "AVC" (some 10)]
    "x" "p" "custom" 0 none (some 0) (some 10) 0 10 (periodTextCustom 0 10)
    (by decide) (by decide) rfl (by decide)
  exact ⟨by decide, by decide, by decide, h.1, h.2.2.1, h.2.2.2.1⟩

/-- C1: whenever the scoring branch is reached, the engine reports
`total = total_A` with the Policy-A tag `AVC_MZ_used` when
`total_A >= total_B` (so equality resolves to Policy A), and `total = total_B`
with the Policy-B tag `Other_MZ_used` when `total_B > total_A`. -/
theorem tie_break_policy (results : List ResultRec) (pid mode : String) (today : Int)
    (rd sd ed : Option Int) (s e : Int) (pt : String)
    (hres : (playerResults results pid).isEmpty = false)
    (hwin : resolveWindow mode today rd sd ed = some (s, e, pt))
    (hw : (windowFilter s e (playerResults results pid)).isEmpty = false) :
    (total_A (windowFilter s e (playerResults results pid))
        ≥ total_B (windowFilter s e (playerResults results pid)) →
      (calculate_player_points results pid mode today rd sd ed).total_points
          = total_A (windowFilter s e (playerResults results pid)) ∧
      (calculate_player_points results pid mode today rd sd ed).scenario_tag
          = "AVC_MZ_used") ∧
    (total_B (windowFilter s e (playerResults results pid))
        > total_A (windowFilter s e (playerResults results pid)) →
      (calculate_player_points results pid mode today rd sd ed).total_points
          = total_B (windowFilter s e (playerResults results pid)) ∧
      (calculate_player_points results pid mode today rd sd ed).scenario_tag
          = "Other_MZ_used") := by
  rw [cpp_scoring results pid mode today rd sd ed s e pt hres hwin hw]
  constructor
  · intro hge
    unfold scoreWindow
    rw [if_pos hge]
    exact ⟨rfl, rfl⟩
  · intro hgt
    unfold scoreWindow
    rw [if_neg (not_le.mpr hgt)]
    exact ⟨rfl, rfl⟩

/-- Witness for C1 at a concrete input: one AVC result worth 10 inside the
window, where `total_A = 10 >= total_B = 10` and the tie goes to Policy A. -/
theorem tie_break_policy_witness :
    ((playerResults [mkRes "1" "p" (some 5) "AVC" (some 10)] "p").isEmpty = false) ∧
    ((windowFilter 0 10 (playerResults [mkRes "1" "p" (some 5) "AVC" (some 10)] "p")).isEmpty
        = false) ∧
    (total_A (windowFilter 0 10 (playerResults [mkRes "1" "p" (some 5) "AVC" (some 10)] "p"))
        ≥ total_B (windowFilter 0 10 (playerResults [mkRes "1" "p" (some 5) "AVC" (some 10)] "p"))) ∧
    (calculate_player_points [mkRes "1" "p" (some 5) "AVC" (some 10)]
        "p" "custom" 0 none (some 0) (some 10)).total_points
      = total_A (windowFilter 0 10 (playerResults [mkRes "1" "p" (some 5) "AVC" (some 10)] "p")) ∧
    (calculate_player_points [mkRes "1" "p" (some 5) "AVC" (some 10)]
        "p" "custom" 0 none (some 0) (some 10)).scenario_tag = "AVC_MZ_used" := by
  have h := (tie_break_policy [mkRes "1" "p" (some 5) "AVC" (some 10)] "p" "custom" 0
    none (some 0) (some 10) 0 10 (periodTextCustom 0 10)
    (by decide) rfl (by decide)).1 (by decide)
  exact ⟨by decide, by decide, by decide, h.1, h.2⟩

/-- `playerResults` only keeps rows of the input table. -/
theorem playerResults_subset {results : List ResultRec} {pid : String} {r : ResultRec}
    (h : r ∈ playerResults results pid) : r ∈ results :=
  List.mem_of_mem_filter h

/-- Every member of the window set comes from the filtered input (with its
points coerced) and carries a parseable date inside `[s, e]`. -/
theorem mem_windowFilter {s e : Int} {res : List ResultRec} {r : ResultRec}
    (h : r ∈ windowFilter s e res) :
    (∃ r0 ∈ res, r = coercePts r0) ∧ ∃ d : Int, r.date = some d ∧ s ≤ d ∧ d ≤ e := by
  unfold windowFilter at h
  obtain ⟨r0, hr0, rfl⟩ := List.mem_map.mp h
  have hf := List.mem_filter.mp hr0
  refine ⟨⟨r0, hf.1, rfl⟩, ?_⟩
  have hw := hf.2
  unfold inWindow at hw
  cases hd : r0.date with
  | none => rw [hd] at hw; exact absurd hw (by simp)
  | some d =>
    rw [hd] at hw
    simp only [Bool.and_eq_true, decide_eq_true_eq] at hw
    exact ⟨d, by simp [coercePts, hd], hw.1, hw.2⟩

/-- Membership is preserved by the date sort of the audit list. -/
theorem mem_sortAscDate {l : List ResultRec} {r : ResultRec} :
    r ∈ sortAscDate l ↔ r ∈ l :=
  List.mem_insertionSort dateLe

/-- C6: every record of the returned window set is one of the input results
(with its points column coerced to a number) whose date is parseable and lies
within `[start, end]` inclusive; records with null/unparseable dates never
enter any window, and the engine never raises. -/
theorem window_subset_and_bounds (results : List ResultRec) (pid mode : String)
    (today : Int) (rd sd ed : Option Int) (s e : Int) (pt : String)
    (hwin : resolveWindow mode today rd sd ed = some (s, e, pt)) :
    ∀ r ∈ (calculate_player_points results pid mode today rd sd ed).window_results,
      (∃ r0 ∈ results, r = coercePts r0) ∧ ∃ d : Int, r.date = some d ∧ s ≤ d ∧ d ≤ e := by
  intro r hr
  have main : r ∈ windowFilter s e (playerResults results pid) →
      (∃ r0 ∈ results, r = coercePts r0) ∧ ∃ d : Int, r.date = some d ∧ s ≤ d ∧ d ≤ e := by
    intro hm
    obtain ⟨⟨r0, hr0, hcoe⟩, hd⟩ := mem_windowFilter hm
    exact ⟨⟨r0, playerResults_subset hr0, hcoe⟩, hd⟩
  unfold calculate_player_points at hr
  by_cases hres : (playerResults results pid).isEmpty = true
  · rw [if_pos hres] at hr
    exact absurd hr (List.not_mem_nil r)
  · rw [if_neg hres, hwin] at hr
    by_cases hw : (windowFilter s e (playerResults results pid)).isEmpty = true
    · simp only [hw, if_pos] at hr
      exact main hr
    · simp only [hw, Bool.false_eq_true, if_false] at hr
      unfold scoreWindow at hr
      split at hr <;>
        exact main (mem_sortAscDate.mp hr)

/-- Witness for C6 at a concrete input: three records — one dated inside the
window, one outside, one with an unparseable date. -/
theorem window_subset_and_bounds_witness :
    (resolveWindow "custom" 0 none (some 0) (some 10) = some (0, 10, periodTextCustom 0 10)) ∧
    (∀ r ∈ (calculate_player_points
        [mkRes "1" "p" (some 5) "AVC" (some 10),
         mkRes "2" "p" (some 50) "FIVB" (some 20),
         mkRes "3" "p" none "AVC" (some 30)] "p" "custom" 0 none (some 0) (some 10)).window_results,
      (∃ r0 ∈ [mkRes "1" "p" (some 5) "AVC" (some 10),
               mkRes "2" "p" (some 50) "FIVB" (some 20),
               mkRes "3" "p" none "AVC" (some 30)], r = coercePts r0) ∧
      ∃ d : Int, r.date = some d ∧ 0 ≤ d ∧ d ≤ 10) :=
  ⟨rfl, window_subset_and_bounds
    [mkRes "1" "p" (some 5) "AVC" (some 10),
     mkRes "2" "p" (some 50) "FIVB" (some 20),
     mkRes "3" "p" none "AVC" (some 30)] "p" "custom" 0 none (some 0) (some 10)
    0 10 (periodTextCustom 0 10) rfl⟩

/-- The points sort is a permutation of its input. -/
theorem sortDescPoints_perm (l : List ResultRec) : (sortDescPoints l).Perm l :=
  List.perm_insertionSort ptsGe l

/-- Membership is preserved by the points sort. -/
theorem mem_sortDescPoints {l : List ResultRec} {r : ResultRec} :
    r ∈ sortDescPoints l ↔ r ∈ l :=
  List.mem_insertionSort ptsGe

/-- The points sort preserves length. -/
theorem length_sortDescPoints (l : List ResultRec) :
    (sortDescPoints l).length = l.length :=
  List.length_insertionSort ptsGe l

/-- The points sort really is descending by points. -/
theorem sorted_sortDescPoints (l : List ResultRec) :
    List.Sorted ptsGe (sortDescPoints l) :=
  List.sorted_insertionSort ptsGe l

/-- A bucket's top-4 selection never has more than 4 entries. -/
theorem top4_length_le (l : List ResultRec) : (top4 l).length ≤ 4 := by
  unfold top4
  rw [List.length_take]
  exact min_le_left _ _

/-- Everything selected by `top4` comes from the bucket. -/
theorem mem_top4 {l : List ResultRec} {r : ResultRec} (h : r ∈ top4 l) : r ∈ l :=
  mem_sortDescPoints.mp (List.mem_of_mem_take h)

/-- Members of Scenario A's bucket 1 have category AVC or AVC Multi/Zonal. -/
theorem mem_bucket1_A {w : List ResultRec} {r : ResultRec} (h : r ∈ bucket1_A w) :
    r.event_type = "AVC" ∨ r.event_type = "AVC Multi/Zonal" := by
  have := (List.mem_filter.mp h).2
  simpa using this

/-- Members of Scenario A's bucket 2 have category FIVB. -/
theorem mem_bucket2_A {w : List ResultRec} {r : ResultRec} (h : r ∈ bucket2_A w) :
    r.event_type = "FIVB" := by
  have := (List.mem_filter.mp h).2
  simpa using this

/-- Members of Scenario B's bucket 1 have category AVC. -/
theorem mem_bucket1_B {w : List ResultRec} {r : ResultRec} (h : r ∈ bucket1_B w) :
    r.event_type = "AVC" := by
  have := (List.mem_filter.mp h).2
  simpa using this

/-- Members of Scenario B's bucket 2 have category FIVB or Other Multi/Zonal. -/
theorem mem_bucket2_B {w : List ResultRec} {r : ResultRec} (h : r ∈ bucket2_B w) :
    r.event_type = "FIVB" ∨ r.event_type = "Other Multi/Zonal" := by
  have := (List.mem_filter.mp h).2
  simpa using this

/-- C3: in the scoring branch, each winning-policy bucket contributes at
most 4 selected results, the selected list has at most 8 entries and is
re-sorted descending by points, every selected result's category matches the
winning policy's bucket definitions, and each reported bucket sum is the
sum of the points of that bucket's top-4 (or fewer) results. -/
theorem bucket_selection_sound (results : List ResultRec) (pid mode : String)
    (today : Int) (rd sd ed : Option Int) (s e : Int) (pt : String)
    (hres : (playerResults results pid).isEmpty = false)
    (hwin : resolveWindow mode today rd sd ed = some (s, e, pt))
    (hw : (windowFilter s e (playerResults results pid)).isEmpty = false) :
    (calculate_player_points results pid mode today rd sd ed).selected_results.length ≤ 8 ∧
    List.Sorted ptsGe (calculate_player_points results pid mode today rd sd ed).selected_results ∧
    ((calculate_player_points results pid mode today rd sd ed).scenario_tag = "AVC_MZ_used" →
      (calculate_player_points results pid mode today rd sd ed).bucket1_points
          = sumPts (top4 (bucket1_A (windowFilter s e (playerResults results pid)))) ∧
      (calculate_player_points results pid mode today rd sd ed).bucket2_points
          = sumPts (top4 (bucket2_A (windowFilter s e (playerResults results pid)))) ∧
      (top4 (bucket1_A (windowFilter s e (playerResults results pid)))).length ≤ 4 ∧
      (top4 (bucket2_A (windowFilter s e (playerResults results pid)))).length ≤ 4 ∧
      ∀ r ∈ (calculate_player_points results pid mode today rd sd ed).selected_results,
        r.event_type = "AVC" ∨ r.event_type = "AVC Multi/Zonal" ∨ r.event_type = "FIVB") ∧
    ((calculate_player_points results pid mode today rd sd ed).scenario_tag = "Other_MZ_used" →
      (calculate_player_points results pid mode today rd sd ed).bucket1_points
          = sumPts (top4 (bucket1_B (windowFilter s e (playerResults results pid)))) ∧
      (calculate_player_points results pid mode today rd sd ed).bucket2_points
          = sumPts (top4 (bucket2_B (windowFilter s e (playerResults results pid)))) ∧
      (top4 (bucket1_B (windowFilter s e (playerResults results pid)))).length ≤ 4 ∧
      (top4 (bucket2_B (windowFilter s e (playerResults results pid)))).length ≤ 4 ∧
      ∀ r ∈ (calculate_player_points results pid mode today rd sd ed).selected_results,
        r.event_type = "AVC" ∨ r.event_type = "FIVB" ∨ r.event_type = "Other Multi/Zonal") := by
  rw [cpp_scoring results pid mode today rd sd ed s e pt hres hwin hw]
  unfold scoreWindow
  split
  · refine ⟨?_, sorted_sortDescPoints _, fun _ => ?_,
      fun habs => absurd (show ("AVC_MZ_used" : String) = "Other_MZ_used" from habs) (by decide)⟩
    · show (sortDescPoints (top4 (bucket1_A _) ++ top4 (bucket2_A _))).length ≤ 8
      rw [length_sortDescPoints, List.length_append]
      have h1 := top4_length_le (bucket1_A (windowFilter s e (playerResults results pid)))
      have h2 := top4_length_le (bucket2_A (windowFilter s e (playerResults results pid)))
      omega
    · refine ⟨rfl, rfl, top4_length_le _, top4_length_le _, fun r hr => ?_⟩
      have hr2 := mem_sortDescPoints.mp hr
      rcases List.mem_append.mp hr2 with h | h
      · rcases mem_bucket1_A (mem_top4 h) with h1 | h1
        · exact Or.inl h1
        · exact Or.inr (Or.inl h1)
      · exact Or.inr (Or.inr (mem_bucket2_A (mem_top4 h)))
  · refine ⟨?_, sorted_sortDescPoints _,
      fun habs => absurd (show ("Other_MZ_used" : String) = "AVC_MZ_used" from habs) (by decide),
      fun _ => ?_⟩
    · show (sortDescPoints (top4 (bucket1_B _) ++ top4 (bucket2_B _))).length ≤ 8
      rw [length_sortDescPoints, List.length_append]
      have h1 := top4_length_le (bucket1_B (windowFilter s e (playerResults results pid)))
      have h2 := top4_length_le (bucket2_B (windowFilter s e (playerResults results pid)))
      omega
    · refine ⟨rfl, rfl, top4_length_le _, top4_length_le _, fun r hr => ?_⟩
      have hr2 := mem_sortDescPoints.mp hr
      rcases List.mem_append.mp hr2 with h | h
      · exact Or.inl (mem_bucket1_B (mem_top4 h))
      · rcases mem_bucket2_B (mem_top4 h) with h1 | h1
        · exact Or.inr (Or.inl h1)
        · exact Or.inr (Or.inr h1)

/-- Witness for C3 on the worked fixture, where Policy A wins the tie. -/
theorem bucket_selection_sound_witness :
    ((playerResults fixtureResults "p").isEmpty = false) ∧
    ((windowFilter 0 100 (playerResults fixtureResults "p")).isEmpty = false) ∧
    ((calculate_player_points fixtureResults "p" "custom" 0 none (some 0) (some 100)).scenario_tag
        = "AVC_MZ_used") ∧
    (calculate_player_points fixtureResults "p" "custom" 0 none (some 0) (some 100)).selected_results.length ≤ 8 ∧
    List.Sorted ptsGe (calculate_player_points fixtureResults "p" "custom" 0 none (some 0) (some 100)).selected_results ∧
    ((calculate_player_points fixtureResults "p" "custom" 0 none (some 0) (some 100)).bucket1_points
        = sumPts (top4 (bucket1_A (windowFilter 0 100 (playerResults fixtureResults "p")))) ∧
      (calculate_player_points fixtureResults "p" "custom" 0 none (some 0) (some 100)).bucket2_points
        = sumPts (top4 (bucket2_A (windowFilter 0 100 (playerResults fixtureResults "p")))) ∧
      (top4 (bucket1_A (windowFilter 0 100 (playerResults fixtureResults "p")))).length ≤ 4 ∧
      (top4 (bucket2_A (windowFilter 0 100 (playerResults fixtureResults "p")))).length ≤ 4 ∧
      ∀ r ∈ (calculate_player_points fixtureResults "p" "custom" 0 none (some 0) (some 100)).selected_results,
        r.event_type = "AVC" ∨ r.event_type = "AVC Multi/Zonal" ∨ r.event_type = "FIVB") := by
  have h := bucket_selection_sound fixtureResults "p" "custom" 0 none (some 0) (some 100)
    0 100 (periodTextCustom 0 100) (by decide) rfl (by decide)
  exact ⟨by decide, by decide, by decide, h.1, h.2.1, h.2.2.1 (by decide)⟩

/-- C7: a result whose category is not one of the four recognized values,
dated inside the window, appears in the window-set audit list but in no
bucket of either policy and never among the selected results. -/
theorem unrecognized_category_excluded (results : List ResultRec) (pid mode : String)
    (today : Int) (rd sd ed : Option Int) (s e : Int) (pt : String)
    (r : ResultRec) (d : Int)
    (hres : (playerResults results pid).isEmpty = false)
    (hwin : resolveWindow mode today rd sd ed = some (s, e, pt))
    (hcat : r.event_type ∉ EVENT_TYPES)
    (hr : r ∈ playerResults results pid)
    (hd : r.date = some d) (hs : s ≤ d) (he : d ≤ e) :
    coercePts r ∈ (calculate_player_points results pid mode today rd sd ed).window_results ∧
    coercePts r ∉ (calculate_player_points results pid mode today rd sd ed).selected_results ∧
    coercePts r ∉ bucket1_A (windowFilter s e (playerResults results pid)) ∧
    coercePts r ∉ bucket2_A (windowFilter s e (playerResults results pid)) ∧
    coercePts r ∉ bucket1_B (windowFilter s e (playerResults results pid)) ∧
    coercePts r ∉ bucket2_B (windowFilter s e (playerResults results pid)) := by
  simp only [EVENT_TYPES, List.mem_cons, List.not_mem_nil, or_false, not_or] at hcat
  obtain ⟨hAVC, hFIVB, hAMZ, hOMZ⟩ := hcat
  have het : (coercePts r).event_type = r.event_type := rfl
  have hmemw : coercePts r ∈ windowFilter s e (playerResults results pid) := by
    unfold windowFilter
    refine List.mem_map_of_mem coercePts (List.mem_filter.mpr ⟨hr, ?_⟩)
    unfold inWindow
    rw [hd]
    simp [hs, he]
  have hb1A : coercePts r ∉ bucket1_A (windowFilter s e (playerResults results pid)) := by
    intro hmem
    rcases mem_bucket1_A hmem with h | h <;> rw [het] at h
    exacts [hAVC h, hAMZ h]
  have hb2A : coercePts r ∉ bucket2_A (windowFilter s e (playerResults results pid)) := by
    intro hmem
    have h := mem_bucket2_A hmem
    rw [het] at h
    exact hFIVB h
  have hb1B : coercePts r ∉ bucket1_B (windowFilter s e (playerResults results pid)) := by
    intro hmem
    have h := mem_bucket1_B hmem
    rw [het] at h
    exact hAVC h
  have hb2B : coercePts r ∉ bucket2_B (windowFilter s e (playerResults results pid)) := by
    intro hmem
    rcases mem_bucket2_B hmem with h | h <;> rw [het] at h
    exacts [hFIVB h, hOMZ h]
  have hwne : (windowFilter s e (playerResults results pid)).isEmpty = false := by
    cases hW : windowFilter s e (playerResults results pid) with
    | nil => rw [hW] at hmemw; exact absurd hmemw (List.not_mem_nil _)
    | cons a t => rfl
  rw [cpp_scoring results pid mode today rd sd ed s e pt hres hwin hwne]
  unfold scoreWindow
  split
  · refine ⟨mem_sortAscDate.mpr hmemw, ?_, hb1A, hb2A, hb1B, hb2B⟩
    intro hsel
    rcases List.mem_append.mp (mem_sortDescPoints.mp hsel) with h | h
    · exact hb1A (mem_top4 h)
    · exact hb2A (mem_top4 h)
  · refine ⟨mem_sortAscDate.mpr hmemw, ?_, hb1A, hb2A, hb1B, hb2B⟩
    intro hsel
    rcases List.mem_append.mp (mem_sortDescPoints.mp hsel) with h | h
    · exact hb1B (mem_top4 h)
    · exact hb2B (mem_top4 h)

/-- Witness for C7 at a concrete input: a record with the unknown category
"Beach" dated inside the window. -/
theorem unrecognized_category_excluded_witness :
    ((playerResults [mkRes "1" "p" (some 5) "Beach" (some 10)] "p").isEmpty = false) ∧
    ((mkRes "1" "p" (some 5) "Beach" (some 10)).event_type ∉ EVENT_TYPES) ∧
    coercePts (mkRes "1" "p" (some 5) "Beach" (some 10))
        ∈ (calculate_player_points [mkRes "1" "p" (some 5) "Beach" (some 10)]
            "p" "custom" 0 none (some 0) (some 10)).window_results ∧
    coercePts (mkRes "1" "p" (some 5) "Beach" (some 10))
        ∉ (calculate_player_points [mkRes "1" "p" (some 5) "Beach" (some 10)]
            "p" "custom" 0 none (some 0) (some 10)).selected_results ∧
    coercePts (mkRes "1" "p" (some 5) "Beach" (some 10))
        ∉ bucket1_A (windowFilter 0 10 (playerResults [mkRes "1" "p" (some 5) "Beach" (some 10)] "p")) ∧
    coercePts (mkRes "1" "p" (some 5) "Beach" (some 10))
        ∉ bucket2_B (windowFilter 0 10 (playerResults [mkRes "1" "p" (some 5) "Beach" (some 10)] "p")) := by
  have h := unrecognized_category_excluded [mkRes "1" "p" (some 5) "Beach" (some 10)]
    "p" "custom" 0 none (some 0) (some 10) 0 10 (periodTextCustom 0 10)
    (mkRes "1" "p" (some 5) "Beach" (some 10)) 5
    (by decide) rfl (by decide) (by decide) rfl (by decide) (by decide)
  exact ⟨by decide, by decide, h.1, h.2.1, h.2.2.1, h.2.2.2.2.2⟩
